import Mathlib

/-!
Verification of `backport::move_only_function` (src/include/backport/move_only_function.hpp).

The wrapper is modelled as a tagged variant over the three storage states the
code distinguishes (`callable == nullptr`, pointer into `storage.buffer`,
heap pointer), exactly as the design notes suggest.  Heap allocations carry an
identifier so that pointer-ownership transfer (no physical relocation) and
alloc/dealloc pairing can be stated.  Every operation additionally returns the
list of low-level events it performs (heap allocation, `delete`, relocation via
`move_to`, in-place destructor via `destroy()`), mirroring the statements in
each member function body.
-/

namespace Backport

/-- Low-level events performed by the wrapper's operations:
`alloc id` is `new heap_callable_impl` (line 170), `dealloc id` is
`delete callable` (line 128: runs the virtual destructor and releases the
block), `relocate` is a `move_to` call (move-construct into raw storage),
`destroyInPlace` is `inline_callable_impl::destroy()` (line 88,
`this->~inline_callable_impl()`). -/
inductive Event where
  | alloc (id : Nat)
  | dealloc (id : Nat)
  | relocate
  | destroyInPlace
  deriving DecidableEq, Repr

/-- The wrapper's state.  `callable == nullptr` is `empty`; a `callable`
pointing into `storage.buffer` is `inlined v` (the payload `v` lives in the
buffer); any other non-null `callable` is `heap id v` (an owned heap block
with allocation identifier `id`).  `v` is the observable result of invoking
the stored callable through `invoke`. -/
inductive Store (R : Type) where
  | empty : Store R
  | inlined (v : R) : Store R
  | heap (id : Nat) (v : R) : Store R
  deriving DecidableEq, Repr

/-- `move_only_function::is_inline` (lines 108-112): true iff `callable` is
non-null and points into `storage.buffer`.  An empty wrapper is NOT inline
(the `callable &&` short-circuit), and a heap pointer lies outside the
buffer range. -/
def is_inline {R : Type} : Store R → Bool
  | Store.inlined _ => true
  | _ => false

/-- `operator bool` (line 224): `callable != nullptr`. -/
def toBool {R : Type} : Store R → Bool
  | Store.empty => false
  | _ => true

/-- Result of `operator()` (lines 219-222): `assert(callable && ...)` fires on
an empty wrapper, otherwise the call forwards to `callable->invoke`. -/
inductive CallResult (R : Type) where
  | assertFailed : CallResult R
  | ok (r : R) : CallResult R
  deriving DecidableEq, Repr

/-- `operator()` (lines 219-222): on an empty wrapper the assertion fails; on
a non-empty wrapper the call forwards to the held callable and returns its
result. -/
def callOp {R : Type} : Store R → CallResult R
  | Store.empty => CallResult.assertFailed
  | Store.inlined v => CallResult.ok v
  | Store.heap _ v => CallResult.ok v

/-- Which concrete implementation of the `callable_base` dispatch interface a
payload uses: `inline_callable_impl` or `heap_callable_impl`. -/
inductive ImplKind where
  | inlineImpl : ImplKind
  | heapImpl : ImplKind
  deriving DecidableEq, Repr

/-- The virtual `destroy()` member of the dispatch interface.
`inline_callable_impl::destroy` (lines 86-89) runs
`this->~inline_callable_impl()`, an in-place destructor call.
`heap_callable_impl::destroy` (lines 66-68) has an EMPTY body: its comment
reads "Heap callables are destroyed via delete", so it performs no action. -/
def destroy_member : ImplKind → List Event
  | ImplKind.inlineImpl => [Event.destroyInPlace]
  | ImplKind.heapImpl => []

/-- `move_only_function::reset` (lines 123-132): if `callable` is non-null,
an inline payload gets `callable->destroy()` (in-place destructor) and a
heap payload gets `delete callable` (virtual destructor plus release of the
block with its allocation id); then `callable = nullptr`. -/
def reset {R : Type} : Store R → Store R × List Event
  | Store.empty => (Store.empty, [])
  | Store.inlined _ => (Store.empty, destroy_member ImplKind.inlineImpl)
  | Store.heap id _ => (Store.empty, [Event.dealloc id])

/-- Platform constants the buffer geometry depends on: `sizeof(void*)` and
`alignof(std::max_align_t)`. -/
structure Platform where
  ptrSize : Nat
  maxAlign : Nat
  deriving DecidableEq, Repr

/-- `buffer_size = sizeof(void*) * 3` (line 40): three machine words. -/
def buffer_size (p : Platform) : Nat := p.ptrSize * 3

/-- `buffer_align = alignof(std::max_align_t)` (line 41). -/
def buffer_align (p : Platform) : Nat := p.maxAlign

/-- Compile-time facts about a concrete callable type `Callable` that
`can_use_soo` consults: `sizeof(inline_callable_impl<Callable>)` (the erased
wrapper object, vtable pointer included), its alignment, and
`std::is_nothrow_move_constructible_v<Callable>`. -/
structure CType where
  implSize : Nat
  implAlign : Nat
  nothrowMove : Bool
  deriving DecidableEq, Repr

/-- `move_only_function::can_use_soo` (lines 114-120): the conjunction of the
size bound, the alignment bound and the non-throwing-move requirement. -/
def can_use_soo (p : Platform) (t : CType) : Bool :=
  decide (t.implSize ≤ buffer_size p) &&
  decide (t.implAlign ≤ buffer_align p) &&
  t.nothrowMove

/-- Constructor from a callable `F` (lines 158-172): if `can_use_soo`, placement-new
an `inline_callable_impl` in `storage.buffer` (no heap event); otherwise
`new heap_callable_impl` (one heap allocation, given the fresh id). -/
def construct {R : Type} (p : Platform) (t : CType) (v : R) (freshId : Nat) :
    Store R × List Event :=
  if can_use_soo p t then (Store.inlined v, [])
  else (Store.heap freshId v, [Event.alloc freshId])

/-- The shared move-transfer logic of the move constructor (lines 139-154) and
the move-assignment tail (lines 183-196): if `other.callable` is null do
nothing; if `other` is inline, `other.callable->move_to(storage.buffer)`
(relocate), then `other.callable->destroy()` (in-place destructor) and
`other.callable = nullptr`; if `other` is heap, transfer the pointer
(`callable = other.callable; other.callable = nullptr`) with no relocation.
Returns (destination state, source state afterwards, events). -/
def move_from {R : Type} : Store R → Store R × Store R × List Event
  | Store.empty => (Store.empty, Store.empty, [])
  | Store.inlined v =>
      (Store.inlined v, Store.empty, [Event.relocate, Event.destroyInPlace])
  | Store.heap id v => (Store.heap id v, Store.empty, [])

/-- Move constructor (lines 139-154): the destination starts with zeroed
storage, then runs the shared transfer logic. -/
def move_construct {R : Type} (other : Store R) : Store R × Store R × List Event :=
  move_from other

/-- Move assignment (lines 179-199).  `aliased` models `this == &other`: when
true the body is skipped entirely (identity guard on line 180).  Otherwise
`reset()` the current payload, then run the same transfer logic as the move
constructor.  Returns (new self, source afterwards, events). -/
def move_assign {R : Type} (self other : Store R) (aliased : Bool) :
    Store R × Store R × List Event :=
  if aliased then (self, other, [])
  else
    let r := reset self
    let m := move_from other
    (m.1, m.2.1, r.2 ++ m.2.2)

/-- Member `swap` (lines 227-278).  `aliased` models `this == &other`
(identity guard on line 228: immediate return).  The four branches follow the
source: both inline relocates through a stack temporary
(`move_to` / `destroy` three times, lines 231-248); inline/heap saves the
other side's pointer — possibly null — relocates the inline payload into the
other buffer, destroys the vacated slot and adopts the saved pointer
(lines 250-261); heap/inline is symmetric (lines 262-273); otherwise
`std::swap(callable, other.callable)` (line 276).  Note an empty wrapper has
`is_inline() == false`, so it takes the heap path with a null pointer.
Returns (new self, new other, events). -/
def swap_mof {R : Type} (a b : Store R) (aliased : Bool) :
    Store R × Store R × List Event :=
  if aliased then (a, b, [])
  else if is_inline a && is_inline b then
    -- this→temp, destroy; other→this, destroy; temp→other, destroy
    (b, a, [Event.relocate, Event.destroyInPlace, Event.relocate,
            Event.destroyInPlace, Event.relocate, Event.destroyInPlace])
  else if is_inline a && !(is_inline b) then
    -- heap_ptr := other.callable; this's inline payload → other's buffer;
    -- destroy vacated slot; this.callable := heap_ptr
    (b, a, [Event.relocate, Event.destroyInPlace])
  else if !(is_inline a) && is_inline b then
    -- symmetric: other's inline payload → this's buffer; other gets the pointer
    (b, a, [Event.relocate, Event.destroyInPlace])
  else
    -- both heap (or empty): std::swap of the two pointers
    (b, a, [])

/-- `operator=(F&&)` (lines 209-217): construct a temporary wrapper from the
callable, then `swap(tmp)`; the temporary (now holding the old payload) is
destroyed at scope exit.  `ctor` is the outcome of constructing the
temporary: `none` means the callable's construction threw, in which case the
swap never runs and `*this` is untouched (the exception propagates).
Returns (state of `*this` afterwards, whether an exception escaped, events). -/
def assign_callable {R : Type} (self : Store R)
    (ctor : Option (Store R × List Event)) : Store R × Bool × List Event :=
  match ctor with
  | Option.none => (self, true, [])
  | Option.some (tmp, ev) =>
      let s := swap_mof self tmp false
      let d := reset s.2.1
      (s.1, false, ev ++ s.2.2 ++ d.2)

/-- Compile-time facts for a raw function pointer type `R(*)(Args...)`:
`sizeof(inline_callable_impl<fp>)` is a vtable pointer plus the function
pointer (two machine words), its alignment is pointer alignment, and
function pointers are nothrow-move-constructible. -/
def fn_ptr_ctype (p : Platform) : CType :=
  CType.mk (2 * p.ptrSize) p.ptrSize true

/-- The null function pointer value for a signature returning `Nat`:
modelled as `Option Nat` with `none` meaning "invoking it dereferences a
null pointer" — there is no result to observe. -/
def null_fn_ptr : Option Nat := Option.none

/-- Heap allocation ids currently owned by a wrapper state. -/
def heap_ids {R : Type} : Store R → List Nat
  | Store.heap id _ => [id]
  | _ => []

/-- Whether an event is a heap allocation. -/
def is_alloc : Event → Bool
  | Event.alloc _ => true
  | _ => false

/-- Whether an event is a heap release. -/
def is_dealloc : Event → Bool
  | Event.dealloc _ => true
  | _ => false

/-- Claim C1: for every two non-empty wrappers, in each of the four storage
combinations (inline/inline, inline/heap, heap/inline, heap/heap — all covered
by quantifying over non-empty states), swap exchanges their observable call
behavior and performs no heap allocation. -/
theorem swap_exchanges_behavior_no_alloc {R : Type} (a b : Store R)
    (ha : toBool a = true) (hb : toBool b = true) :
    callOp (swap_mof a b false).1 = callOp b ∧
    callOp (swap_mof a b false).2.1 = callOp a ∧
    ((swap_mof a b false).2.2.filter is_alloc = []) := by
  cases a <;> cases b <;>
    simp [swap_mof, is_inline, callOp, toBool, is_alloc, List.filter] at *

/-- Claim C1 witness: swapping a concrete inline wrapper with a concrete heap
wrapper exchanges their call behaviors. -/
theorem swap_exchanges_behavior_no_alloc_witness :
    toBool (Store.inlined (1 : Nat)) = true ∧
    callOp (swap_mof (Store.inlined (1 : Nat)) (Store.heap 0 2) false).1 =
      callOp (Store.heap 0 (2 : Nat)) :=
  ⟨by decide,
   (swap_exchanges_behavior_no_alloc (Store.inlined (1 : Nat)) (Store.heap 0 2)
      (by decide) (by decide)).1⟩

/-- Claim C2: moving a non-empty wrapper `w` (by move construction or move
assignment into any wrapper) leaves `w` empty and the destination non-empty
with `w`'s pre-move invocation behavior; a heap payload is transferred by
pointer ownership only (same allocation id, no relocation event). -/
theorem move_transfers_ownership {R : Type} (w : Store R)
    (h : toBool w = true) :
    (move_construct w).2.1 = Store.empty ∧
    toBool (move_construct w).1 = true ∧
    callOp (move_construct w).1 = callOp w ∧
    (∀ id v, w = Store.heap id v →
       (move_construct w).1 = Store.heap id v ∧ (move_construct w).2.2 = []) ∧
    (∀ s : Store R,
       (move_assign s w false).2.1 = Store.empty ∧
       toBool (move_assign s w false).1 = true ∧
       callOp (move_assign s w false).1 = callOp w ∧
       (∀ id v, w = Store.heap id v →
          Event.relocate ∉ (move_assign s w false).2.2)) := by
  cases w with
  | empty => simp [toBool] at h
  | inlined v =>
      refine ⟨rfl, rfl, rfl, by simp, fun s => ?_⟩
      cases s <;>
        simp [move_assign, move_from, reset, destroy_member, toBool, callOp]
  | heap id v =>
      refine ⟨rfl, rfl, rfl, by simp [move_construct, move_from], fun s => ?_⟩
      cases s <;>
        simp [move_assign, move_from, reset, destroy_member, toBool, callOp]

/-- Claim C2 witness: moving out of a concrete heap wrapper empties it. -/
theorem move_transfers_ownership_witness :
    toBool (Store.heap 3 (7 : Nat)) = true ∧
    (move_construct (Store.heap 3 (7 : Nat))).2.1 = Store.empty :=
  ⟨by decide, (move_transfers_ownership (Store.heap 3 (7 : Nat)) (by decide)).1⟩

/-- Claim C3: construction from a callable of type `t` performs zero heap
allocations exactly when `can_use_soo` holds (size ≤ three machine words,
alignment ≤ strictest fundamental alignment, non-throwing move), and one
allocation otherwise; destruction then performs the one matching
deallocation (and only an in-place destructor in the inline case).  A type
failing any single one of the three conditions is never inline. -/
theorem construct_alloc_iff_soo {R : Type} (p : Platform) (t : CType) (v : R)
    (n : Nat) :
    ((construct p t v n).2 =
       if can_use_soo p t then ([] : List Event) else [Event.alloc n]) ∧
    ((reset (construct p t v n).1).2 =
       if can_use_soo p t then [Event.destroyInPlace] else [Event.dealloc n]) ∧
    can_use_soo p (CType.mk t.implSize t.implAlign false) = false ∧
    can_use_soo p (CType.mk (buffer_size p + 1) t.implAlign t.nothrowMove) = false ∧
    can_use_soo p (CType.mk t.implSize (buffer_align p + 1) t.nothrowMove) = false := by
  refine ⟨?_, ?_, ?_, ?_, ?_⟩
  · by_cases h : can_use_soo p t = true <;> simp [construct, h]
  · by_cases h : can_use_soo p t = true <;>
      simp [construct, h, reset, destroy_member]
  · simp [can_use_soo]
  · simp [can_use_soo]
  · simp [can_use_soo]

/-- Claim C4: when assignment from a new raw callable fails because the new
payload's construction throws, the wrapper's previous payload is untouched:
the wrapper is still non-empty and invoking it yields the previous payload's
value (strong exception safety via construct-temporary-then-swap). -/
theorem assign_strong_exception_safety {R : Type} (w : Store R)
    (h : toBool w = true) :
    (assign_callable w Option.none).1 = w ∧
    (assign_callable w Option.none).2.1 = true ∧
    toBool (assign_callable w Option.none).1 = true ∧
    callOp (assign_callable w Option.none).1 = callOp w :=
  ⟨rfl, rfl, h, rfl⟩

/-- Claim C4 witness: a throwing assignment leaves a concrete inline wrapper
with its old behavior. -/
theorem assign_strong_exception_safety_witness :
    toBool (Store.inlined (42 : Nat)) = true ∧
    callOp (assign_callable (Store.inlined (42 : Nat)) Option.none).1 =
      callOp (Store.inlined (42 : Nat)) :=
  ⟨by decide,
   (assign_strong_exception_safety (Store.inlined (42 : Nat)) (by decide)).2.2.2⟩

/-- Claim C5 counterexample: the dispatch interface's `destroy()` member on a
heap implementation performs no action at all — in particular it does NOT
release the heap allocation (the release happens in `reset()` via
`delete callable`, outside `destroy()`). -/
theorem heap_destroy_member_releases_nothing :
    destroy_member ImplKind.heapImpl = [] ∧
    (destroy_member ImplKind.heapImpl).filter is_dealloc = [] := by
  exact ⟨rfl, rfl⟩

/-- Claim C5 (amended): `destroy()` runs the payload's destructor in place for
inline payloads and is a no-op for heap payloads; the heap allocation is
instead released by the wrapper's `reset()`, which calls `delete` on a heap
handle (running the virtual destructor and freeing the block). -/
theorem destroy_dispatch_and_reset {R : Type} (id : Nat) (v : R) :
    destroy_member ImplKind.inlineImpl = [Event.destroyInPlace] ∧
    destroy_member ImplKind.heapImpl = [] ∧
    reset (Store.inlined v) = (Store.empty, [Event.destroyInPlace]) ∧
    reset (Store.heap id v) = (Store.empty, [Event.dealloc id]) :=
  ⟨rfl, rfl, rfl, rfl⟩

/-- Claim C6: invoking an empty wrapper fails the assertion (it never silently
returns a default); on any non-empty wrapper the call forwards to the held
callable, and the assertion fires exactly on the empty state. -/
theorem invoke_empty_asserts {R : Type} (v : R) (id : Nat) :
    callOp (Store.empty : Store R) = CallResult.assertFailed ∧
    callOp (Store.inlined v) = CallResult.ok v ∧
    callOp (Store.heap id v) = CallResult.ok v ∧
    (∀ s : Store R, callOp s = CallResult.assertFailed ↔ toBool s = false) := by
  refine ⟨rfl, rfl, rfl, fun s => ?_⟩
  cases s <;> simp [callOp, toBool]

/-- Claim C7: self-move-assignment and self-swap — the case where the `this ==
&other` identity guard is taken — are no-ops that leave the wrapper
unchanged, performing no events, so a non-empty wrapper keeps its behavior. -/
theorem self_move_and_swap_noop {R : Type} (w : Store R) :
    move_assign w w true = (w, w, []) ∧
    swap_mof w w true = (w, w, []) ∧
    callOp (move_assign w w true).1 = callOp w ∧
    toBool (swap_mof w w true).1 = toBool w :=
  ⟨rfl, rfl, rfl, rfl⟩

/-- Claim C8: every wrapper state is exactly one of empty, inline or heap
(the classifiers `operator bool` and `is_inline` carve out the three states),
and after every move-out operation the source is empty (moves) or holds the
other operand's former payload (swap), with the multiset of owned heap
allocations preserved — never double-owned. -/
theorem tri_state_invariant {R : Type} (s o a b : Store R) :
    ((toBool s = false) ↔ s = Store.empty) ∧
    ((is_inline s = true) ↔ ∃ v, s = Store.inlined v) ∧
    ((toBool s = true ∧ is_inline s = false) ↔ ∃ id v, s = Store.heap id v) ∧
    (move_construct o).2.1 = Store.empty ∧
    (move_assign s o false).2.1 = Store.empty ∧
    (heap_ids (move_construct o).1 ++ heap_ids (move_construct o).2.1
       = heap_ids o) ∧
    ((swap_mof a b false).1 = b ∧ (swap_mof a b false).2.1 = a) ∧
    (heap_ids (swap_mof a b false).1 ++ heap_ids (swap_mof a b false).2.1
       = heap_ids b ++ heap_ids a) := by
  refine ⟨?_, ?_, ?_, ?_, ?_, ?_, ?_, ?_⟩
  · cases s <;> simp [toBool]
  · cases s <;> simp [is_inline]
  · cases s <;> simp [toBool, is_inline]
  · cases o <;> rfl
  · cases s <;> cases o <;> rfl
  · cases o <;> rfl
  · cases a <;> cases b <;> simp [swap_mof, is_inline]
  · cases a <;> cases b <;> simp [swap_mof, is_inline, heap_ids]

/-- Claim C9: swap also works when one or both operands are empty: an empty
wrapper is classified as not-inline (so it takes the heap-pointer path with a
null pointer, which transfers harmlessly); swapping a non-empty wrapper with
an empty one moves the payload over and leaves the other empty; swapping two
empties leaves both empty; no branch allocates. -/
theorem swap_with_empty_operand {R : Type} (a : Store R) :
    is_inline (Store.empty : Store R) = false ∧
    (swap_mof a Store.empty false).1 = Store.empty ∧
    (swap_mof a Store.empty false).2.1 = a ∧
    (swap_mof Store.empty a false).1 = a ∧
    (swap_mof Store.empty a false).2.1 = Store.empty ∧
    swap_mof (Store.empty : Store R) Store.empty false =
      (Store.empty, Store.empty, []) ∧
    ((swap_mof a Store.empty false).2.2.filter is_alloc = []) ∧
    ((swap_mof Store.empty a false).2.2.filter is_alloc = []) := by
  cases a <;>
    simp [swap_mof, is_inline, is_alloc, List.filter]

/-- Claim C10: constructing a wrapper from a null function pointer of matching
signature yields a NON-empty wrapper — `operator bool` only reports whether a
payload object is stored (`callable != nullptr`), not whether the payload is
itself safely callable; indeed construction from any accepted callable value
yields a non-empty wrapper. -/
theorem null_fn_ptr_wrapper_nonempty (p : Platform) (n : Nat) :
    null_fn_ptr = Option.none ∧
    toBool (construct p (fn_ptr_ctype p) null_fn_ptr n).1 = true ∧
    (∀ (R : Type) (t : CType) (v : R) (m : Nat),
       toBool (construct p t v m).1 = true) := by
  refine ⟨rfl, ?_, ?_⟩
  · by_cases h : can_use_soo p (fn_ptr_ctype p) = true <;>
      simp [construct, h, toBool]
  · intro R t v m
    by_cases h : can_use_soo p t = true <;> simp [construct, h, toBool]

end Backport
